import Mathlib

/-!
Verification of the mcp-api-colombia tool registry and request-dispatch core.

This file is a shallow embedding of the repository's TypeScript sources:

* `src/utils/common/schemas.ts` — the zod validation schemas;
* `src/utils/utils.ts` (in-src portion) — `createToolResponse`,
  `handleToolError`, `executeApiCall`;
* the per-resource tool definition files (`src/tools/definitions/*.ts`,
  plus the country / department / natural-area definition files shipped in
  the repository) — descriptor lists and handler maps;
* `src/create-server.ts` — the `ListToolsRequestSchema` and
  `CallToolRequestSchema` request handlers (registry merge and dispatch).

JavaScript exceptions are embedded as `Except` values: a thrown error is an
`Except.error` carrying the `Error`'s `message` (and, for `ToolError`, the
attached details object).  The upstream REST client is a parameter of type
`UpstreamObserver`; handlers additionally log every upstream invocation so
that "the upstream operation is (not) invoked" is statable.
-/

/-- A JSON value (the payloads exchanged with the upstream client and the
tool-call argument values).  Numbers are modelled as integers: every numeric
argument the schemas constrain is an id / page / pageSize. -/
inductive Json where
  | null
  | bool (b : Bool)
  | num (n : Int)
  | str (s : String)
  | arr (elems : List Json)
  | obj (members : List (String × Json))

/-- JSON string escaping as performed by `JSON.stringify` for the characters
relevant here (backslash and double quote; control characters do not occur in
the modelled data). -/
def escapeJsonChar (c : Char) : String :=
  if c = '\\' then "\\\\" else if c = '"' then "\\\"" else String.singleton c

/-- Escape a whole string for JSON output. -/
def escapeJson (s : String) : String :=
  String.join (s.toList.map escapeJsonChar)

mutual
/-- `JSON.stringify`, as used by `createToolResponse` in `src/utils/utils.ts`
(object members in insertion order, no added whitespace). -/
def Json.serialize : Json → String
  | .null => "null"
  | .bool true => "true"
  | .bool false => "false"
  | .num n => toString n
  | .str s => "\"" ++ escapeJson s ++ "\""
  | .arr es => "[" ++ Json.serializeArr es ++ "]"
  | .obj ms => "\x7b" ++ Json.serializeObj ms ++ "\x7d"

/-- Comma-separated serialization of array elements. -/
def Json.serializeArr : List Json → String
  | [] => ""
  | [e] => Json.serialize e
  | e :: es => Json.serialize e ++ "," ++ Json.serializeArr es

/-- Comma-separated serialization of object members. -/
def Json.serializeObj : List (String × Json) → String
  | [] => ""
  | [(k, v)] => "\"" ++ escapeJson k ++ "\":" ++ Json.serialize v
  | (k, v) :: ms =>
      "\"" ++ escapeJson k ++ "\":" ++ Json.serialize v ++ "," ++ Json.serializeObj ms
end

mutual
/-- JavaScript string coercion of a value, as performed by template-literal
interpolation in the handlers' context strings. -/
def Json.jsString : Json → String
  | .null => "null"
  | .bool true => "true"
  | .bool false => "false"
  | .num n => toString n
  | .str s => s
  | .arr es => Json.jsStringArr es
  | .obj _ => "[object Object]"

/-- JavaScript `Array#toString`: elements joined by commas. -/
def Json.jsStringArr : List Json → String
  | [] => ""
  | [e] => Json.jsString e
  | e :: es => Json.jsString e ++ "," ++ Json.jsStringArr es
end

/-- JavaScript coercion of a possibly-`undefined` value (`none` is the
`undefined` produced by reading a missing field). -/
def jsShow : Option Json → String
  | none => "undefined"
  | some v => v.jsString

/-- The arguments mapping of a tool call (`request.params.arguments`). -/
abbrev Args := List (String × Json)

/-- Property access on the arguments object: a missing field reads as
`undefined` (`none`), mirroring the destructuring in `extractArguments`
(spec §4.3 step 1: missing fields become `undefined`, not defaults). -/
def extractField (args : Args) (field : String) : Option Json :=
  args.lookup field

/-! ### The zod schema library (`src/utils/common/schemas.ts`) -/

/-- A single zod field validator, covering exactly the combinators the
schema library uses: `z.number().min(bound, msg)`, `z.string().optional()`,
`z.enum([...]).optional()` and `z.string()`. -/
inductive ZodField where
  | numMin (bound : Int) (msg : String)
  | optionalString
  | optionalEnum (values : List String)
  | requiredString

/-- A `z.object` schema: named fields, each with its validator. -/
abbrev ZodObject := List (String × ZodField)

/-- Validation of one field value (`none` is `undefined`): returns the zod
issue message, or `none` on success.  Required validators reject
`undefined` with zod's `Required` issue; `.min` rejects numbers below the
bound with the schema's custom message. -/
def ZodField.check : ZodField → Option Json → Option String
  | .numMin bound msg, some (.num n) => if n < bound then some msg else none
  | .numMin _ _, none => some "Required"
  | .numMin _ _, some _ => some "Expected number"
  | .optionalString, none => none
  | .optionalString, some (.str _) => none
  | .optionalString, some _ => some "Expected string"
  | .optionalEnum _, none => none
  | .optionalEnum vs, some (.str s) =>
      if s ∈ vs then none else some "Invalid enum value"
  | .optionalEnum _, some _ => some "Invalid enum value"
  | .requiredString, none => some "Required"
  | .requiredString, some (.str _) => none
  | .requiredString, some _ => some "Expected string"

/-- The value of field `k` in the object handed to `schema.parse`
(`none` when the key is absent or explicitly `undefined`). -/
def fieldValue (input : List (String × Option Json)) (k : String) : Option Json :=
  (input.lookup k).getD none

/-- `schema.parse(input)`: collect every violated field with its message
(zod reports all issues, not just the first; unknown keys are stripped
silently).  An empty issue list means the parse succeeded. -/
def zodParse (schema : ZodObject) (input : List (String × Option Json)) :
    List (String × String) :=
  schema.filterMap fun kv => (kv.2.check (fieldValue input kv.1)).map fun m => (kv.1, m)

/-- `commonSchemas.id`: `z.number().min(1, 'Id must be greater than 0')`. -/
def commonSchemasId : ZodField := .numMin 1 "Id must be greater than 0"

/-- `commonRequiredIdSchema = z.object({ id: commonSchemas.id })`. -/
def commonRequiredIdSchema : ZodObject := [("id", commonSchemasId)]

/-- One element of a `ToolResponse`'s `content` array. -/
structure ContentItem where
  type : String
  text : String

/-- The protocol response envelope.  `meta` models the optional `_meta`
field: `createToolResponse` always attaches an empty `_meta` object, while
the dispatcher's catch-block literal omits the field (`none`). -/
structure ToolResponse where
  content : List ContentItem
  isError : Bool
  meta : Option (List (String × Json))

/-- `createToolResponse(data)` with the default `isError = false`: a single
text item holding `JSON.stringify(data)`, plus an empty `_meta`. -/
def createToolResponse (data : Json) : ToolResponse :=
  { content := [{ type := "text", text := data.serialize }],
    isError := false,
    meta := some [] }

/-- A thrown JavaScript error, as observed by a `catch` block: its
`message`, and (for `ToolError`) the attached details object.
Modelled from the spec: the `ToolError` class itself
(`src/utils/common/api-errors.ts`) is not among the provided sources; per
spec §7 it is the error carrier for recovered failures, and
`handleToolError` (which is in the sources) constructs it from a message
string plus a per-field report, so it is modelled as an `Error` subclass
whose `message` is the first constructor argument and whose `details` is
the second. -/
structure JsError where
  message : String
  details : List (String × String)

/-- The error value a `catch` block receives: either a `z.ZodError` carrying
the per-field issues, or any other error carrying a message. -/
inductive CaughtError where
  | zod (issues : List (String × String))
  | other (message : String)

/-- `handleToolError(error, context)` from `src/utils/utils.ts`: a `ZodError`
becomes a thrown `ToolError` with message `"Invalid input: <context>"` and
the formatted issues as details; anything else becomes a thrown `ToolError`
with message `"<context> failed: <error message>"`.  Note that this function
*throws* (its TypeScript return type is `never`); the embedding returns the
error the caller is to raise. -/
def handleToolError (error : CaughtError) (context : String) : JsError :=
  match error with
  | .zod issues => { message := "Invalid input: " ++ context, details := issues }
  | .other m => { message := context ++ " failed: " ++ m, details := [] }

/-- `validateToolInput(schema, input, context)`.
Modelled from the spec: the function body is not among the provided sources
(only its import from `src/utils/utils.ts` and its call sites are); per
spec §4.3 step 2 it validates the extracted fields against the runtime
schema and, through the in-source `handleToolError` ZodError branch, raises
on failure. -/
def validateToolInput (schema : ZodObject) (input : List (String × Option Json))
    (context : String) : Except JsError Unit :=
  match zodParse schema input with
  | [] => .ok ()
  | issue :: issues => .error (handleToolError (.zod (issue :: issues)) context)

/-- One invocation of a generated upstream client function: the operation's
name and its `{ path, query }` argument.  Field values are the raw extracted
argument values, so a field may be `undefined` (`none`). -/
structure UpstreamCall where
  op : String
  path : List (String × Option Json)
  query : List (String × Option Json)

/-- The upstream REST collaborator (spec §6): each invocation either
resolves with a decoded JSON payload or rejects with an error message. -/
abbrev UpstreamObserver := UpstreamCall → Except String Json

/-- `executeApiCall(apiCall, context)` from `src/utils/utils.ts`: return the
resolved payload, or re-raise any rejection through `handleToolError`'s
non-Zod branch. -/
def executeApiCall (apiCall : Except String Json) (context : String) :
    Except JsError Json :=
  match apiCall with
  | .ok v => .ok v
  | .error m => .error (handleToolError (.other m) context)

/-- The outcome of running one handler: the value it returns, or the error
it throws (`result`), together with the upstream invocations it performed
(`calls`). -/
structure RunResult where
  result : Except JsError ToolResponse
  calls : List UpstreamCall

/-- A tool handler: from the request's arguments and the upstream
collaborator to a run outcome. -/
abbrev Handler := Args → UpstreamObserver → RunResult

/-- The uniform handler shape shared by every schema-validating tool
definition: extract the named fields from the arguments, validate the
extracted object against the schema (raising on failure, before any
upstream call), invoke the single upstream operation, and wrap the payload
with `createToolResponse`.  `vctx` and `cctx` are the (interpolated)
context strings passed to `validateToolInput` and `executeApiCall`. -/
def mkToolHandler (schema : ZodObject) (fields : List String)
    (vctx : Args → String) (mkCall : Args → UpstreamCall)
    (cctx : Args → String) : Handler :=
  fun args up =>
    match validateToolInput schema
        (fields.map fun f => (f, extractField args f)) (vctx args) with
    | .error e => { result := .error e, calls := [] }
    | .ok _ =>
        match executeApiCall (up (mkCall args)) (cctx args) with
        | .ok v => { result := .ok (createToolResponse v), calls := [mkCall args] }
        | .error e => { result := .error e, calls := [mkCall args] }

/-- The handler shape of the no-input tools (empty object schema): ignore
the arguments entirely, perform the upstream call, wrap the payload. -/
def plainApiHandler (call : UpstreamCall) (cctx : String) : Handler :=
  fun _ up =>
    match executeApiCall (up call) cctx with
    | .ok v => { result := .ok (createToolResponse v), calls := [call] }
    | .error e => { result := .error e, calls := [call] }

/-- Template interpolation of an extracted argument field into a context
string. -/
def argShow (args : Args) (field : String) : String :=
  jsShow (extractField args field)

/-- A tool descriptor as declared in the definition files. -/
structure Tool where
  name : String
  description : String

/-! #### Country (`src/tools/definitions/country.ts`, shipped in the sources) -/

/-- The `get-country-colombia` handler: no validation at all (empty object
input schema); call `getApiV1CountryColombia()` and wrap the payload. -/
def getCountryColombiaHandler : Handler :=
  plainApiHandler ⟨"getApiV1CountryColombia", [], []⟩ "Get country colombia data"

/-- The `get-region` descriptor of `src/tools/region/index.ts` (empty object
input schema). -/
def GET_REGION_INDEX : Tool := ⟨"get-region", "Get the list of regions in Colombia."⟩

/-- The `get-region` handler of `src/tools/region/index.ts`: ignores the
request entirely, calls `getApiV1Region()`, wraps the payload. -/
def getRegionIndexHandler : Handler :=
  plainApiHandler ⟨"getApiV1Region", [], []⟩ "Get regions"

/-! #### Department (the 8-tool definitions file shipped in the sources) -/

/-- The `get-constitution-article-by-chapter-number` handler, verbatim from
the source: it extracts `chapterNumber`, then validates the object
`{ chapterNumber }` against `commonRequiredIdSchema` — a schema requiring a
field named `id`. -/
def getConstitutionArticleByChapterNumberHandler : Handler :=
  mkToolHandler commonRequiredIdSchema ["chapterNumber"]
    (fun a => "Get constitution article by chapter number: " ++ argShow a "chapterNumber")
    (fun a => ⟨"getApiV1ConstitutionArticleByChapterNumberByChapternumber",
               [("chapternumber", extractField a "chapterNumber")], []⟩)
    (fun _ => "Get constitution article by chapter number")

/-! ### Registry merge and dispatch (`createServer`) -/

/-- The error envelope built by the dispatcher's catch block:
`{ content: [{ type: 'text', text: 'Error: <message>' }], isError: true }`
(no `_meta` field in this literal). -/
def dispatchErrorResponse (message : String) : ToolResponse :=
  { content := [{ type := "text", text := "Error: " ++ message }],
    isError := true,
    meta := none }

/-- The dispatcher's try/catch around a handler run: a returned response is
passed through unchanged; a thrown error is converted to the generic error
envelope carrying `error.message`. -/
def dispatchWrap (r : RunResult) : ToolResponse :=
  match r.result with
  | .ok resp => resp
  | .error e => dispatchErrorResponse e.message

/-- The `CallToolRequestSchema` handler of `createServer`, over an arbitrary
handler registry: look the tool name up; if absent, the thrown
`Error('Unknown tool: <name>')` is caught by the same catch block; if
present, run the handler and wrap its outcome.  The second component is the
list of upstream invocations performed (empty when no handler ran).

`List.lookup` models the source's `ALL_HANDLERS[toolName]` access exactly
on registry keys (own properties, which shadow the prototype) and on names
that are not `Object.prototype` members; for unregistered names that *are*
prototype members the source's property access finds an inherited truthy
member instead — that full JavaScript behavior is `dispatchCallJs` below,
and the agreement between the two on the exact range is
`dispatchCallJs_agrees`. -/
def dispatchCall (handlers : List (String × Handler)) (name : String)
    (args : Args) (up : UpstreamObserver) : ToolResponse × List UpstreamCall :=
  match handlers.lookup name with
  | none => (dispatchErrorResponse ("Unknown tool: " ++ name), [])
  | some h => (dispatchWrap (h args up), (h args up).calls)

/-- The own property names of `Object.prototype`, inherited by every plain
object literal — in particular by the spread-built `ALL_HANDLERS` object.
Accessing any of these names on the registry yields a truthy inherited
member, so the dispatcher's `if (!handler)` guard does not fire. -/
def objectPrototypeMembers : List String :=
  ["constructor", "hasOwnProperty", "isPrototypeOf", "propertyIsEnumerable",
   "toLocaleString", "toString", "valueOf", "__defineGetter__",
   "__defineSetter__", "__lookupGetter__", "__lookupSetter__", "__proto__"]

/-- The result of the JavaScript property access `ALL_HANDLERS[toolName]`:
an own property (a registered handler), a truthy member inherited from
`Object.prototype`, or `undefined`. -/
inductive PropAccess where
  | own (h : Handler)
  | inherited (member : String)
  | absent

/-- `ALL_HANDLERS[toolName]` with prototype-chain semantics: own properties
shadow the prototype; failing that, `Object.prototype` members are found;
only otherwise is the access `undefined` (falsy). -/
def propAccess (handlers : List (String × Handler)) (n : String) : PropAccess :=
  match handlers.lookup n with
  | some h => .own h
  | none => if n ∈ objectPrototypeMembers then .inherited n else .absent

/-- What the source dispatcher hands back to the transport: either a
dispatched `ToolResponse` envelope together with the upstream calls
performed, or the outcome of invoking an inherited `Object.prototype`
member as if it were a handler — an engine-dependent value (a raw string
for `toString`, the request object for `constructor`, a caught `TypeError`
for most others) that is in no case the Unknown-tool envelope and performs
no upstream call; the embedding keeps it abstract, recording only which
member leaked through. -/
inductive JsDispatchOutcome where
  | envelope (resp : ToolResponse) (calls : List UpstreamCall)
  | protoMember (member : String)

/-- The `CallToolRequestSchema` handler with full JavaScript property
access: own key → run the handler under the dispatcher's try/catch;
inherited `Object.prototype` member → truthy, the guard does not fire and
the member itself is invoked (the prototype-leak path); `undefined` → the
thrown `Error('Unknown tool: <name>')` is caught into the error
envelope. -/
def dispatchCallJs (handlers : List (String × Handler)) (name : String)
    (args : Args) (up : UpstreamObserver) : JsDispatchOutcome :=
  match propAccess handlers name with
  | .own h => .envelope (dispatchWrap (h args up)) (h args up).calls
  | .inherited m => .protoMember m
  | .absent => .envelope (dispatchErrorResponse ("Unknown tool: " ++ name)) []

/-- On its exact range — registry keys, and names that are not
`Object.prototype` members — the full JavaScript dispatcher agrees with the
two-path `dispatchCall` the theorems above use. -/
theorem dispatchCallJs_agrees (handlers : List (String × Handler)) (n : String)
    (a : Args) (up : UpstreamObserver)
    (h : (handlers.lookup n).isSome = true ∨ n ∉ objectPrototypeMembers) :
    dispatchCallJs handlers n a up =
      .envelope (dispatchCall handlers n a up).1 (dispatchCall handlers n a up).2 := by
  cases hl : handlers.lookup n with
  | some hh => simp only [dispatchCallJs, propAccess, dispatchCall, hl]
  | none =>
      rcases h with h | h
      · rw [hl] at h
        exact absurd h (by simp)
      · simp only [dispatchCallJs, propAccess, dispatchCall, hl, if_neg h]

/-! ### The claims -/

/-- C9: for every arguments mapping whatsoever, the
`get-constitution-article-by-chapter-number` handler validates the object
`{ chapterNumber }` against `commonRequiredIdSchema`, whose required `id`
field is never supplied — so validation fails with the `id: Required`
issue on every input, the upstream operation is never invoked, and the
dispatched response is error-flagged. -/
theorem claim_C9 : ∀ (a : Args) (up : UpstreamObserver),
    (getConstitutionArticleByChapterNumberHandler a up).result =
      .error { message := "Invalid input: Get constitution article by chapter number: " ++
                 argShow a "chapterNumber",
               details := [("id", "Required")] } ∧
    (getConstitutionArticleByChapterNumberHandler a up).calls = [] ∧
    (dispatchWrap (getConstitutionArticleByChapterNumberHandler a up)).isError = true := by
  intro a up
  exact ⟨rfl, rfl, rfl⟩

/-- C10: the no-input tools (`get-region` of the region index file and
`get-country-colombia`) perform no argument validation at all: for every
arguments mapping — including extraneous or ill-typed fields — the handler
invokes its upstream operation, and on upstream success returns the wrapped
payload with `isError = false`. -/
theorem claim_C10 : ∀ (a : Args) (up : UpstreamObserver) (v : Json),
    (∀ c, up c = .ok v) →
    (getRegionIndexHandler a up).result = .ok (createToolResponse v) ∧
    (getRegionIndexHandler a up).calls =
      [{ op := "getApiV1Region", path := [], query := [] }] ∧
    (getCountryColombiaHandler a up).result = .ok (createToolResponse v) ∧
    (getCountryColombiaHandler a up).calls =
      [{ op := "getApiV1CountryColombia", path := [], query := [] }] ∧
    (createToolResponse v).isError = false := by
  intro a up v hstub
  simp [getRegionIndexHandler, getCountryColombiaHandler, plainApiHandler,
    executeApiCall, hstub, createToolResponse]

/-- C10, witness: the theorem at an arguments mapping full of extraneous and
ill-typed fields, with a stub upstream returning the payload `7`. -/
theorem claim_C10_witness :
    (getRegionIndexHandler [("bogus", Json.str "x"), ("id", Json.bool true)]
        (fun _ => .ok (Json.num 7))).result = .ok (createToolResponse (Json.num 7)) ∧
    (getRegionIndexHandler [("bogus", Json.str "x"), ("id", Json.bool true)]
        (fun _ => .ok (Json.num 7))).calls =
      [{ op := "getApiV1Region", path := [], query := [] }] ∧
    (getCountryColombiaHandler [("bogus", Json.str "x"), ("id", Json.bool true)]
        (fun _ => .ok (Json.num 7))).result = .ok (createToolResponse (Json.num 7)) ∧
    (getCountryColombiaHandler [("bogus", Json.str "x"), ("id", Json.bool true)]
        (fun _ => .ok (Json.num 7))).calls =
      [{ op := "getApiV1CountryColombia", path := [], query := [] }] ∧
    (createToolResponse (Json.num 7)).isError = false :=
  claim_C10 [("bogus", Json.str "x"), ("id", Json.bool true)]
    (fun _ => .ok (Json.num 7)) (Json.num 7) (fun _ => rfl)
